import Mathlib

/-!
Verification development for the celestial-coordinate / spatial-search core of
the repository: a shallow embedding of `src/utils/celestialCoordinates.ts` (and
its twin `.js`), `src/utils/searchArea.ts`, `src/utils/data/celestialDataManager.ts`,
and `src/utils/data/spatialSearch.ts` together with the JS "predictable debug"
search variant, plus theorems settling the frozen claims about them.

Modelling conventions:
- JavaScript numbers on the main computation path are modelled as real numbers
  (`ℝ`); trigonometric functions become their Mathlib counterparts.
- `Math.floor` on reals is `Int.floor`; the JS `%` operator (truncated-division
  remainder) is `jsMod` below.
- `Math.atan2 (y, x)` is `jsAtan2` below, defined by the usual piecewise
  formula with range `(-π, π]` and `jsAtan2 0 0 = 0` as in IEEE/JS.
- Where non-finite values (NaN) are essential to a claim, a separate explicit
  model is used: `JSVal` (finite / NaN / infinities) for the orientation guard,
  and `Option ℝ` (with `none` = NaN) for the NaN-semantics model of the search.
- Ambient state read by the code (the current `Date`, the predictable-search
  global flag, the global scan counter) is passed as an explicit parameter.
-/

/-- Truncation toward zero, the rounding used by the JS `%` operator. -/
noncomputable def jsTrunc (q : ℝ) : ℤ := if 0 ≤ q then ⌊q⌋ else ⌈q⌉

/-- The JS remainder operator `a % b` for `b > 0`: `a - b * trunc (a / b)`. -/
noncomputable def jsMod (a b : ℝ) : ℝ := a - b * jsTrunc (a / b)

/-- Source: `degToRad` in `celestialCoordinates.ts`. -/
noncomputable def degToRad (deg : ℝ) : ℝ := deg * Real.pi / 180

/-- Source: `radToDeg` in `celestialCoordinates.ts`. -/
noncomputable def radToDeg (rad : ℝ) : ℝ := rad * 180 / Real.pi

/-- Source: `wrapDegrees` in `celestialCoordinates.ts`:
`let x = d % 360; if (x < 0) x += 360; return x`. -/
noncomputable def wrapDegrees (d : ℝ) : ℝ :=
  let x := jsMod d 360
  if x < 0 then x + 360 else x

/-- Source: `wrapHours` in `celestialCoordinates.ts`:
`let x = h % 24; if (x < 0) x += 24; return x`. -/
noncomputable def wrapHours (h : ℝ) : ℝ :=
  let x := jsMod h 24
  if x < 0 then x + 24 else x

/-- Model of `Math.atan2 (y, x)` with the standard piecewise definition, range
`(-π, π]`, and `jsAtan2 0 0 = 0` as in JS for `+0`. -/
noncomputable def jsAtan2 (y x : ℝ) : ℝ :=
  if 0 < x then Real.arctan (y / x)
  else if x < 0 then
    (if 0 ≤ y then Real.arctan (y / x) + Real.pi else Real.arctan (y / x) - Real.pi)
  else
    (if 0 < y then Real.pi / 2 else if y < 0 then -(Real.pi / 2) else 0)

/-- Model of `Math.hypot (x, y, z)`. -/
noncomputable def jsHypot3 (x y z : ℝ) : ℝ := Real.sqrt (x ^ 2 + y ^ 2 + z ^ 2)

/-- For positive modulus, `jsMod` of a nonnegative argument lies in `[0, b)`. -/
lemma jsMod_nonneg_mem {a b : ℝ} (hb : 0 < b) (ha : 0 ≤ a) :
    0 ≤ jsMod a b ∧ jsMod a b < b := by
  have hq : 0 ≤ a / b := div_nonneg ha hb.le
  have htr : jsTrunc (a / b) = ⌊a / b⌋ := if_pos hq
  constructor
  · have h1 : (⌊a / b⌋ : ℝ) ≤ a / b := Int.floor_le _
    have h2 : b * (⌊a / b⌋ : ℝ) ≤ b * (a / b) := by
      exact mul_le_mul_of_nonneg_left h1 hb.le
    have : b * (a / b) = a := by field_simp
    simp only [jsMod, htr]
    linarith
  · have h1 : a / b < (⌊a / b⌋ : ℝ) + 1 := Int.lt_floor_add_one _
    have h2 : b * (a / b) < b * ((⌊a / b⌋ : ℝ) + 1) := by
      exact mul_lt_mul_of_pos_left h1 hb
    have : b * (a / b) = a := by field_simp
    simp only [jsMod, htr]
    nlinarith

/-- For positive modulus, `jsMod` of a negative argument lies in `(-b, 0]`. -/
lemma jsMod_neg_mem {a b : ℝ} (hb : 0 < b) (ha : a < 0) :
    -b < jsMod a b ∧ jsMod a b ≤ 0 := by
  have hq : ¬ 0 ≤ a / b := by
    have : a / b < 0 := div_neg_of_neg_of_pos ha hb
    linarith
  have htr : jsTrunc (a / b) = ⌈a / b⌉ := if_neg hq
  have h1 : a / b ≤ (⌈a / b⌉ : ℝ) := Int.le_ceil _
  have h2 : (⌈a / b⌉ : ℝ) - 1 < a / b := by
    have := Int.ceil_lt_add_one (a / b)
    linarith
  constructor
  · have h3 : b * ((⌈a / b⌉ : ℝ) - 1) < b * (a / b) := mul_lt_mul_of_pos_left h2 hb
    have : b * (a / b) = a := by field_simp
    simp only [jsMod, htr]
    nlinarith
  · have h3 : b * (a / b) ≤ b * (⌈a / b⌉ : ℝ) := mul_le_mul_of_nonneg_left h1 hb.le
    have : b * (a / b) = a := by field_simp
    simp only [jsMod, htr]
    nlinarith

/-- The value of `wrapHours` always lands in `[0, 24)`. -/
lemma wrapHours_mem (h : ℝ) : 0 ≤ wrapHours h ∧ wrapHours h < 24 := by
  unfold wrapHours
  by_cases ha : 0 ≤ h
  · have := jsMod_nonneg_mem (a := h) (b := 24) (by norm_num) ha
    rw [if_neg (by linarith [this.1])]
    exact this
  · have := jsMod_neg_mem (a := h) (b := 24) (by norm_num) (by linarith)
    by_cases hx : jsMod h 24 < 0
    · rw [if_pos hx]
      constructor <;> linarith [this.1, this.2]
    · rw [if_neg hx]
      constructor <;> linarith [this.2]

/-- The value of `wrapDegrees` always lands in `[0, 360)`. -/
lemma wrapDegrees_mem (d : ℝ) : 0 ≤ wrapDegrees d ∧ wrapDegrees d < 360 := by
  unfold wrapDegrees
  by_cases ha : 0 ≤ d
  · have := jsMod_nonneg_mem (a := d) (b := 360) (by norm_num) ha
    rw [if_neg (by linarith [this.1])]
    exact this
  · have := jsMod_neg_mem (a := d) (b := 360) (by norm_num) (by linarith)
    by_cases hx : jsMod d 360 < 0
    · rw [if_pos hx]
      constructor <;> linarith [this.1, this.2]
    · rw [if_neg hx]
      constructor <;> linarith [this.2]

lemma jsMod_zero_left (b : ℝ) : jsMod 0 b = 0 := by
  simp [jsMod, jsTrunc]

lemma wrapDegrees_zero : wrapDegrees 0 = 0 := by
  simp [wrapDegrees, jsMod_zero_left]

/-- Identity `jsMod a b = a` when `0 ≤ a < b` (a value already in range). -/
lemma jsMod_eq_self {a b : ℝ} (hb : 0 < b) (h0 : 0 ≤ a) (h1 : a < b) : jsMod a b = a := by
  have hq0 : 0 ≤ a / b := div_nonneg h0 hb.le
  have hq1 : a / b < 1 := (div_lt_one hb).mpr h1
  have : ⌊a / b⌋ = 0 := Int.floor_eq_zero_iff.mpr ⟨hq0, hq1⟩
  simp [jsMod, jsTrunc, if_pos hq0, this]

lemma wrapDegrees_eq_self {a : ℝ} (h0 : 0 ≤ a) (h1 : a < 360) : wrapDegrees a = a := by
  rw [wrapDegrees]
  simp only [jsMod_eq_self (by norm_num : (0:ℝ) < 360) h0 h1]
  rw [if_neg (by linarith)]

/-- Result of the orientation conversion on the finite path. -/
structure AltAz where
  altitude : ℝ
  azimuth : ℝ

/-- Finite-input path of `deviceOrientationToAltAz` (`celestialCoordinates.ts`):
the rotation `Rz(alpha) * Rx(beta) * Ry(gamma)` applied to the device forward
vector `(0,0,-1)`, then altitude/azimuth extraction, transcribed line by line.
Only the third column of `R` is transcribed (`R02`, `R12`, `R22`): the source
computes all nine entries but reads only `-R02`, `-R12`, `-R22`, so the other
six are dead code. -/
noncomputable def deviceOrientationToAltAzFinite (alpha beta gamma : ℝ) : AltAz :=
  let z := degToRad alpha
  let x := degToRad beta
  let y := degToRad gamma
  let cz := Real.cos z; let sz := Real.sin z
  let cx := Real.cos x; let sx := Real.sin x
  let cy := Real.cos y; let sy := Real.sin y
  let r00 := cz; let r01 := -sz; let r02 := (0:ℝ)
  let r10 := sz; let r11 := cz; let r12 := (0:ℝ)
  let r20 := (0:ℝ); let r21 := (0:ℝ); let r22 := (1:ℝ)
  let rx00 := (1:ℝ); let rx01 := (0:ℝ); let rx02 := (0:ℝ)
  let rx10 := (0:ℝ); let rx11 := cx; let rx12 := -sx
  let rx20 := (0:ℝ); let rx21 := sx; let rx22 := cx
  let R1_00 := r00 * rx00 + r01 * rx10 + r02 * rx20
  let R1_01 := r00 * rx01 + r01 * rx11 + r02 * rx21
  let R1_02 := r00 * rx02 + r01 * rx12 + r02 * rx22
  let R1_10 := r10 * rx00 + r11 * rx10 + r12 * rx20
  let R1_11 := r10 * rx01 + r11 * rx11 + r12 * rx21
  let R1_12 := r10 * rx02 + r11 * rx12 + r12 * rx22
  let R1_20 := r20 * rx00 + r21 * rx10 + r22 * rx20
  let R1_21 := r20 * rx01 + r21 * rx11 + r22 * rx21
  let R1_22 := r20 * rx02 + r21 * rx12 + r22 * rx22
  let ry02 := sy
  let ry12 := (0:ℝ)
  let ry22 := cy
  let R02 := R1_00 * ry02 + R1_01 * ry12 + R1_02 * ry22
  let R12 := R1_10 * ry02 + R1_11 * ry12 + R1_12 * ry22
  let R22 := R1_20 * ry02 + R1_21 * ry12 + R1_22 * ry22
  let vx := -R02
  let vy := -R12
  let vz := -R22
  let hyp := jsHypot3 vx vy vz
  let len := if hyp = 0 then 1 else hyp
  let nx := vx / len; let ny := vy / len; let nz := vz / len
  let altitude := radToDeg (Real.arcsin nz)
  let azRad := jsAtan2 nx ny
  let azimuth := wrapDegrees (radToDeg azRad)
  { altitude := altitude, azimuth := azimuth }

/-- A JS number as seen by `isFinite`: a finite real, NaN, or an infinity. -/
inductive JSVal where
  | num (x : ℝ)
  | nan
  | posInf
  | negInf

/-- The JS `isFinite` predicate on `JSVal`. -/
def JSVal.isFinite : JSVal → Bool
  | .num _ => true
  | _ => false

/-- Source: `deviceOrientationToAltAz` in `celestialCoordinates.ts` /
`celestialCoordinates.js`. The non-finite guard
`if (!isFinite(alpha) || !isFinite(beta) || !isFinite(gamma)) return {altitude: NaN, azimuth: NaN}`
is modelled by the catch-all match arm; the finite path delegates to the
rotation computation `deviceOrientationToAltAzFinite`. -/
noncomputable def deviceOrientationToAltAz (alpha beta gamma : JSVal) : JSVal × JSVal :=
  match alpha, beta, gamma with
  | .num a, .num b, .num g =>
      let r := deviceOrientationToAltAzFinite a b g
      (.num r.altitude, .num r.azimuth)
  | _, _, _ => (.nan, .nan)

/-- UTC fields of a JS `Date`, as read by `getUTCFullYear` (= `Y`),
`getUTCMonth` (0-based, = `M0`), `getUTCDate`, `getUTCHours`, `getUTCMinutes`,
`getUTCSeconds`. -/
structure JSDate where
  Y : ℤ
  M0 : ℕ
  day : ℕ
  hh : ℕ
  mm : ℕ
  ss : ℕ

/-- Source: `toJulianDate` in `celestialCoordinates.ts`, transcribed with its
original statement order (including computing `A`/`B` from the unadjusted year
and the fractional-day `D` in the calendar-cutover test). -/
noncomputable def toJulianDate (date : JSDate) : ℝ :=
  let Y : ℝ := (date.Y : ℝ)
  let M : ℝ := (date.M0 : ℝ) + 1
  let D : ℝ := (date.day : ℝ) +
    ((date.hh : ℝ) + ((date.mm : ℝ) + (date.ss : ℝ) / 60) / 60) / 24
  let A : ℝ := (⌊Y / 100⌋ : ℝ)
  let B : ℝ := 2 - A + (⌊A / 4⌋ : ℝ)
  let B := if Y < 1582 ∨ (Y = 1582 ∧ (M < 10 ∨ (M = 10 ∧ D < 15))) then 0 else B
  let M := if M ≤ 2 then M + 12 else M
  (⌊365.25 * (Y + 4716)⌋ : ℝ) + (⌊30.6001 * (M + 1)⌋ : ℝ) + D + B - 1524.5

/-- Source: `gmstHours` in `celestialCoordinates.ts`. -/
noncomputable def gmstHours (date : JSDate) : ℝ :=
  let JD := toJulianDate date
  let D := JD - 2451545.0
  let H : ℝ := (date.hh : ℝ) + (date.mm : ℝ) / 60 + (date.ss : ℝ) / 3600
  let GMST := 6.697374558 + 0.06570982441908 * D + 1.00273790935 * H
  wrapHours (jsMod (jsMod GMST 24 + 24) 24)

/-- The declination (radians) computed by `altAzToRaDec`:
`Math.asin(Math.max(-1, Math.min(1, sinDec)))` with
`sinDec = sinA * sinPhi + cosA * cosPhi * cosAz`. -/
noncomputable def decRadOf (altitudeDeg azimuthDeg latitudeDeg : ℝ) : ℝ :=
  let a := degToRad altitudeDeg
  let A := degToRad azimuthDeg
  let phi := degToRad latitudeDeg
  let sinDec := Real.sin a * Real.sin phi + Real.cos a * Real.cos phi * Real.cos A
  Real.arcsin (max (-1) (min 1 sinDec))

/-- The divisor guard `Math.cos(dec) || 1e-9` of `altAzToRaDec`: the JS `||`
falls through to `1e-9` exactly when its left operand is `0` (the only falsy
finite value). -/
noncomputable def cosDecGuard (c : ℝ) : ℝ := if c = 0 then 1e-9 else c

/-- Result record of `altAzToRaDec`. -/
structure RaDec where
  raHours : ℝ
  decDeg : ℝ
  lstHours : ℝ

/-- Source: `altAzToRaDec` in `celestialCoordinates.ts` / `.js`. The
declination computation is the named definition `decRadOf` and the divisor
guard is `cosDecGuard`; everything else is transcribed in place. -/
noncomputable def altAzToRaDec (altitudeDeg azimuthDeg latitudeDeg longitudeDeg : ℝ)
    (date : JSDate) : RaDec :=
  let a := degToRad altitudeDeg
  let A := degToRad azimuthDeg
  let phi := degToRad latitudeDeg
  let lst := wrapHours (gmstHours date + longitudeDeg / 15)
  let sinA := Real.sin a; let cosA := Real.cos a
  let sinPhi := Real.sin phi; let cosPhi := Real.cos phi
  let cosAz := Real.cos A; let sinAz := Real.sin A
  let sinDec := sinA * sinPhi + cosA * cosPhi * cosAz
  let dec := decRadOf altitudeDeg azimuthDeg latitudeDeg
  let cosDec := cosDecGuard (Real.cos dec)
  let sinH := -sinAz * cosA / cosDec
  let cosH := (sinA - sinPhi * sinDec) / (cosPhi * cosDec)
  let H := jsAtan2 sinH cosH
  let H_hours := radToDeg H / 15
  let raHours := wrapHours (lst - H_hours)
  let decDeg := radToDeg dec
  { raHours := raHours, decDeg := decDeg, lstHours := lst }

/-- Result record of `getRaDecFromDevice`. -/
structure RaDecFromDevice where
  raHours : ℝ
  decDeg : ℝ
  altitude : ℝ
  azimuth : ℝ
  lstHours : ℝ

/-- Source: `getRaDecFromDevice` in `celestialCoordinates.ts` / `.js`, on the
finite-orientation path (the chained functions are total over `ℝ` here; the
non-finite guard of the first stage is modelled separately on `JSVal`). The
ambient `new Date()` default is the explicit `when` parameter. -/
noncomputable def getRaDecFromDevice (alpha beta gamma latitude longitude : ℝ)
    (when' : JSDate) : RaDecFromDevice :=
  let o := deviceOrientationToAltAzFinite alpha beta gamma
  let r := altAzToRaDec o.altitude o.azimuth latitude longitude when'
  { raHours := r.raHours, decDeg := r.decDeg, altitude := o.altitude,
    azimuth := o.azimuth, lstHours := r.lstHours }

/-- Source: the `SearchBoundary` type of `searchArea.ts`. -/
structure SearchBoundary where
  centerRA : ℝ
  centerDec : ℝ
  minRA : ℝ
  maxRA : ℝ
  minDec : ℝ
  maxDec : ℝ
  searchRadiusDegrees : ℝ

/-- The `minRA`/`maxRA` block of `calculateSearchArea` (`searchArea.ts`),
as a function of the already-computed center. The source's
`!isFinite(cosDec)` disjunct is omitted: the cosine of a real number is
always finite in this model. -/
noncomputable def raBoundsOf (centerRA centerDec searchRadiusDegrees : ℝ) : ℝ × ℝ :=
  let cosDec := Real.cos (degToRad centerDec)
  if |cosDec| < 1e-6 then (0, 24)
  else
    let deltaRAHours := min 12 (searchRadiusDegrees / |cosDec| / 15)
    if deltaRAHours ≥ 12 - 1e-6 then (0, 24)
    else (wrapHours (centerRA - deltaRAHours), wrapHours (centerRA + deltaRAHours))

/-- Source: `calculateSearchArea` in `searchArea.ts`. The ambient `new Date()`
is the explicit `now` parameter; the default radius in the source is 7. -/
noncomputable def calculateSearchArea (alpha beta gamma latitude longitude
    searchRadiusDegrees : ℝ) (now : JSDate) : SearchBoundary :=
  let r := getRaDecFromDevice alpha beta gamma latitude longitude now
  let centerRA := wrapHours r.raHours
  let centerDec := max (-90) (min 90 r.decDeg)
  let minDec := max (-90) (centerDec - searchRadiusDegrees)
  let maxDec := min 90 (centerDec + searchRadiusDegrees)
  let ra := raBoundsOf centerRA centerDec searchRadiusDegrees
  { centerRA := centerRA, centerDec := centerDec, minRA := ra.1, maxRA := ra.2,
    minDec := minDec, maxDec := maxDec, searchRadiusDegrees := searchRadiusDegrees }

/-- Source: the `Disposicion` union of `celestialDataManager.ts`
(`'Planeta Confirmado' | 'Candidato' | 'Falso Positivo'`). -/
inductive Disposicion where
  | planetaConfirmado
  | candidato
  | falsoPositivo
deriving DecidableEq

/-- Source: the `CelestialObject` interface of `celestialDataManager.ts`. -/
structure CelestialObject where
  id_objeto : String
  disposicion : Disposicion
  Loc1_RA : ℝ
  Loc2_DEC : ℝ
  radio_planeta : ℝ
  temp_planeta : ℝ
  periodo_orbital : ℝ
  temp_estrella : ℝ
  radio_estrella : ℝ
  bandera_fp_nt : Bool
  bandera_fp_ss : Bool
  bandera_fp_co : Bool
  bandera_fp_ec : Bool

/-- Source: `RA_BIN_DEG` in `celestialDataManager.ts`. -/
def RA_BIN_DEG : ℝ := 10

/-- Source: `DEC_BIN_DEG` in `celestialDataManager.ts`. -/
def DEC_BIN_DEG : ℝ := 10

/-- Source: `wrapRa` in `celestialDataManager.ts` (a local duplicate of
`wrapDegrees`). -/
noncomputable def wrapRa (ra : ℝ) : ℝ :=
  let x := jsMod ra 360
  if x < 0 then x + 360 else x

/-- Source: `clampDec` in `celestialDataManager.ts`. -/
noncomputable def clampDec (dec : ℝ) : ℝ := max (-90) (min 90 dec)

/-- Source: `regionKey` in `celestialDataManager.ts`. The source renders the
two bin indices as the string `"raBin:decBin"`; that rendering is injective on
integer pairs, so the pair itself serves as the key here. -/
noncomputable def regionKey (raDeg decDeg : ℝ) : ℤ × ℤ :=
  let ra := wrapRa raDeg
  let dec := clampDec decDeg
  (⌊ra / RA_BIN_DEG⌋, ⌊(dec + 90) / DEC_BIN_DEG⌋)

/-- The private fields of `CelestialDataManagerImpl`. `idToObj` is the JS `Map`
(later `set` wins on key collision), `regions` is the JS `Map` of region
buckets with the absent key read back as `[]` (`get(key) ?? []`), `byType` the
classification record. -/
structure ManagerState where
  loaded : Bool
  all : List CelestialObject
  idToObj : String → Option CelestialObject
  regions : ℤ × ℤ → List CelestialObject
  byType : Disposicion → List CelestialObject

/-- The manager state after the constructor / the reset lines at the top of
`loadDataset` (`loaded = false`, all indices empty). -/
def emptyManagerState : ManagerState where
  loaded := false
  all := []
  idToObj := fun _ => none
  regions := fun _ => []
  byType := fun _ => []

/-- The normalization applied to each record in `loadDataset`:
`{ ...item, Loc1_RA: wrapRa(item.Loc1_RA), Loc2_DEC: clampDec(item.Loc2_DEC) }`. -/
noncomputable def normalizeObj (item : CelestialObject) : CelestialObject :=
  { item with Loc1_RA := wrapRa item.Loc1_RA, Loc2_DEC := clampDec item.Loc2_DEC }

/-- One iteration of the `for (const item of dataset)` loop in `loadDataset`:
push to `all`, `set` in the id map, push to the classification bucket, and
push to (or create) the region bucket. -/
noncomputable def insertObj (m : ManagerState) (item : CelestialObject) : ManagerState :=
  let n := normalizeObj item
  { loaded := m.loaded
    all := m.all ++ [n]
    idToObj := fun k => if k = n.id_objeto then some n else m.idToObj k
    byType := fun c => if c = n.disposicion then m.byType c ++ [n] else m.byType c
    regions := fun k =>
      if k = regionKey n.Loc1_RA n.Loc2_DEC then m.regions k ++ [n] else m.regions k }

/-- Source: `CelestialDataManagerImpl.loadDataset`. The reset lines discard
every index of the previous state (the `m` argument is therefore unused), the
loop inserts each normalized record, and `loaded` is set at the end. -/
noncomputable def loadDataset (_m : ManagerState) (dataset : List CelestialObject) :
    ManagerState :=
  let m1 := dataset.foldl insertObj emptyManagerState
  { m1 with loaded := true }

/-- Source: `CelestialDataManagerImpl.getAllObjects`. -/
def getAllObjects (m : ManagerState) : List CelestialObject := m.all

/-- Source: `CelestialDataManagerImpl._getRegion`:
`this.regions.get(regionKey(raDeg, decDeg)) ?? []`. -/
noncomputable def getRegion (m : ManagerState) (raDeg decDeg : ℝ) : List CelestialObject :=
  m.regions (regionKey raDeg decDeg)

/-- Source: the `SearchResult` type of `spatialSearch.ts`. -/
structure SearchResult where
  object : CelestialObject
  distanceDeg : ℝ
  bearingDeg : ℝ

/-- Source: `raHoursToDeg` in `spatialSearch.ts`. -/
noncomputable def raHoursToDeg (hours : ℝ) : ℝ := hours * 15

/-- Source: `angularSeparationDeg` in `spatialSearch.ts`. -/
noncomputable def angularSeparationDeg (ra1Deg dec1Deg ra2Deg dec2Deg : ℝ) : ℝ :=
  let phi1 := degToRad dec1Deg
  let phi2 := degToRad dec2Deg
  let dLam := degToRad (wrapDegrees (ra2Deg - ra1Deg))
  let cosd := Real.sin phi1 * Real.sin phi2 +
    Real.cos phi1 * Real.cos phi2 * Real.cos dLam
  let d := Real.arccos (max (-1) (min 1 cosd))
  radToDeg d

/-- Source: `initialBearingDeg` in `spatialSearch.ts`. -/
noncomputable def initialBearingDeg (ra1Deg dec1Deg ra2Deg dec2Deg : ℝ) : ℝ :=
  let phi1 := degToRad dec1Deg
  let phi2 := degToRad dec2Deg
  let lam1 := degToRad ra1Deg
  let lam2 := degToRad ra2Deg
  let y := Real.sin (lam2 - lam1) * Real.cos phi2
  let x := Real.cos phi1 * Real.sin phi2 -
    Real.sin phi1 * Real.cos phi2 * Real.cos (lam2 - lam1)
  let theta := jsAtan2 y x
  wrapDegrees (radToDeg theta)

/-- An RA segment `{ min, max }` as built by `searchCelestialObjects`. -/
structure RASegment where
  lo : ℝ
  hi : ℝ

/-- The RA segment list of `searchCelestialObjects` (`spatialSearch.ts`): one
segment when `minRADeg <= maxRADeg`, otherwise the wraparound pair
`[minRADeg, 360]` and `[0, maxRADeg]`. -/
noncomputable def searchSegments (searchArea : SearchBoundary) : List RASegment :=
  let minRADeg := raHoursToDeg searchArea.minRA
  let maxRADeg := raHoursToDeg searchArea.maxRA
  if minRADeg ≤ maxRADeg then [⟨minRADeg, maxRADeg⟩]
  else [⟨minRADeg, 360⟩, ⟨0, maxRADeg⟩]

/-- One iteration of the `for (const obj of source)` loop of
`searchCelestialObjects`: `continue` is `none`, `results.push` is `some`. -/
noncomputable def searchStep (searchArea : SearchBoundary) (obj : CelestialObject) :
    Option SearchResult :=
  let centerRAdeg := raHoursToDeg searchArea.centerRA
  let centerDec := searchArea.centerDec
  let ra := wrapDegrees obj.Loc1_RA
  let dec := obj.Loc2_DEC
  if dec < searchArea.minDec ∨ dec > searchArea.maxDec then none
  else if ¬ ∃ seg ∈ searchSegments searchArea, seg.lo ≤ ra ∧ ra ≤ seg.hi then none
  else some
    { object := obj
      distanceDeg := angularSeparationDeg centerRAdeg centerDec ra dec
      bearingDeg := initialBearingDeg centerRAdeg centerDec ra dec }

/-- The unsorted `results` array of `searchCelestialObjects`, in catalog
iteration order. -/
noncomputable def searchCandidates (searchArea : SearchBoundary)
    (source : List CelestialObject) : List SearchResult :=
  source.filterMap (searchStep searchArea)

/-- The sort order of `results.sort((a, b) => a.distanceDeg - b.distanceDeg)`:
`a` stays before `b` iff the comparator is `<= 0`. JS `Array.prototype.sort`
is required to be stable, which a merge sort by this relation realizes. -/
noncomputable def searchLe (a b : SearchResult) : Bool :=
  decide (a.distanceDeg ≤ b.distanceDeg)

/-- Source: `searchCelestialObjects` in `spatialSearch.ts`. The
`dataset ?? CelestialDataManager.getAllObjects()` fallback is resolved by the
caller: `source` is the already-resolved object list (every claim concerns an
explicit dataset). The two `console.log` calls have no effect on the result. -/
noncomputable def searchCelestialObjects (searchArea : SearchBoundary)
    (source : List CelestialObject) : List SearchResult :=
  (searchCandidates searchArea source).mergeSort searchLe

/-- The coarse compass direction of the JS debug path (`humanDirection` in the
JS search variant). -/
inductive Direction where
  | up
  | north
  | east
  | south
  | west
deriving DecidableEq

/-- Source: `humanDirection` in the JS search variant (part_006). -/
noncomputable def humanDirection (alpha beta : ℝ) : Direction :=
  if beta > 60 then .up
  else
    let a := jsMod (jsMod alpha 360 + 360) 360
    if a ≥ 315 ∨ a < 45 then .north
    else if a ≥ 45 ∧ a < 135 then .east
    else if a ≥ 135 ∧ a < 225 then .south
    else .west

/-- Source: `raHoursToDeg` in the JS search variant (part_006), a duplicate of
the TS helper. -/
noncomputable def raHoursToDegJ (hours : ℝ) : ℝ := hours * 15

/-- Source: `angularSeparationDeg` in the JS search variant (part_006), a
duplicate of the TS helper. -/
noncomputable def angularSeparationDegJ (ra1Deg dec1Deg ra2Deg dec2Deg : ℝ) : ℝ :=
  let phi1 := degToRad dec1Deg
  let phi2 := degToRad dec2Deg
  let dLam := degToRad (wrapDegrees (ra2Deg - ra1Deg))
  let cosd := Real.sin phi1 * Real.sin phi2 +
    Real.cos phi1 * Real.cos phi2 * Real.cos dLam
  let d := Real.arccos (max (-1) (min 1 cosd))
  radToDeg d

/-- Source: `initialBearingDeg` in the JS search variant (part_006), a
duplicate of the TS helper. -/
noncomputable def initialBearingDegJ (ra1Deg dec1Deg ra2Deg dec2Deg : ℝ) : ℝ :=
  let phi1 := degToRad dec1Deg
  let phi2 := degToRad dec2Deg
  let lam1 := degToRad ra1Deg
  let lam2 := degToRad ra2Deg
  let y := Real.sin (lam2 - lam1) * Real.cos phi2
  let x := Real.cos phi1 * Real.sin phi2 -
    Real.sin phi1 * Real.cos phi2 * Real.cos (lam2 - lam1)
  let theta := jsAtan2 y x
  wrapDegrees (radToDeg theta)

/-- Source: `augmentFromDataset` in the JS search variant (part_006). Note the
source scores `obj.Loc1_RA` raw here (without `wrapDegrees`), unlike the main
loop. -/
noncomputable def augmentFromDataset (centerRAdeg centerDec : ℝ)
    (dataset : List CelestialObject) (seed : List SearchResult) (n : ℕ)
    (requiredType : Option Disposicion) : List SearchResult :=
  let existingIds := seed.map (fun r => r.object.id_objeto)
  let scored := dataset.filterMap (fun obj =>
    if obj.id_objeto ∈ existingIds then none
    else if ∃ t, requiredType = some t ∧ obj.disposicion ≠ t then none
    else some
      { object := obj
        distanceDeg := angularSeparationDegJ centerRAdeg centerDec obj.Loc1_RA obj.Loc2_DEC
        bearingDeg := initialBearingDegJ centerRAdeg centerDec obj.Loc1_RA obj.Loc2_DEC })
  let sorted := scored.mergeSort searchLe
  seed ++ sorted.take (n - seed.length)

/-- One iteration of the filter loop of the JS `searchCelestialObjects`
variant (part_006); textually identical to the TS `searchStep`. -/
noncomputable def searchStepJ (searchArea : SearchBoundary) (obj : CelestialObject) :
    Option SearchResult :=
  let centerRAdeg := raHoursToDegJ searchArea.centerRA
  let centerDec := searchArea.centerDec
  let ra := wrapDegrees obj.Loc1_RA
  let dec := obj.Loc2_DEC
  let minRADeg := raHoursToDegJ searchArea.minRA
  let maxRADeg := raHoursToDegJ searchArea.maxRA
  let segments : List RASegment :=
    if minRADeg ≤ maxRADeg then [⟨minRADeg, maxRADeg⟩]
    else [⟨minRADeg, 360⟩, ⟨0, maxRADeg⟩]
  if dec < searchArea.minDec ∨ dec > searchArea.maxDec then none
  else if ¬ ∃ seg ∈ segments, seg.lo ≤ ra ∧ ra ≤ seg.hi then none
  else some
    { object := obj
      distanceDeg := angularSeparationDegJ centerRAdeg centerDec ra dec
      bearingDeg := initialBearingDegJ centerRAdeg centerDec ra dec }

/-- Source: `searchCelestialObjects` in the JS search variant (part_006).
Ambient state is passed explicitly: `predictable` is the
`process.env.PREDICTABLE_SEARCH` / `window.__PREDICTABLE_SEARCH` read,
`scanCount` is the global `__SCAN_COUNT` value before this call (the source
increments it to `count`), `optsAlpha`/`optsBeta` are the `opts` fields with
their `?? 0` defaults applied below. `source` is the resolved dataset as in
the TS model. -/
noncomputable def searchCelestialObjectsJS (searchArea : SearchBoundary)
    (source : List CelestialObject) (optsAlpha optsBeta : Option ℝ)
    (predictable : Bool) (scanCount : ℕ) : List SearchResult :=
  let centerRAdeg := raHoursToDegJ searchArea.centerRA
  let centerDec := searchArea.centerDec
  let results := (source.filterMap (searchStepJ searchArea)).mergeSort searchLe
  if predictable then
    let alpha := optsAlpha.getD 0
    let beta := optsBeta.getD 0
    let direction := humanDirection alpha beta
    let count := scanCount + 1
    let ensureAtLeast : ℕ → List SearchResult := fun n =>
      if results.length ≥ n then results
      else augmentFromDataset centerRAdeg centerDec source results n none
    let results2 :=
      match direction with
      | .up =>
          match results.filter
              (fun r => decide (r.object.disposicion = .planetaConfirmado)) with
          | c :: _ => [c]
          | [] => augmentFromDataset centerRAdeg centerDec source [] 1
              (some .planetaConfirmado)
      | .north => (ensureAtLeast 3).take 3
      | .south =>
          match results.find? (fun r => decide (r.object.disposicion = .candidato)) with
          | some c => [c]
          | none => augmentFromDataset centerRAdeg centerDec source [] 1 (some .candidato)
      | .east => []
      | .west => (ensureAtLeast 5).take 5
    if count % 3 == 0 && results2.length == 0 then
      augmentFromDataset centerRAdeg centerDec source [] 1 none
    else results2
  else results

/-- A JS number restricted to finite-or-NaN, for the NaN-semantics model of the
search: `some x` is the finite double modelled by the real `x`, `none` is NaN.
(Infinities are not needed: the claims exercised on this model use NaN.) -/
abbrev ONum := Option ℝ

/-- NaN propagation through a unary JS `Math` operation. -/
noncomputable def oNum1 (f : ℝ → ℝ) : ONum → ONum
  | some a => some (f a)
  | none => none

/-- JS `<` on finite-or-NaN numbers: any comparison with NaN is false. -/
noncomputable def oLt (a b : ONum) : Bool :=
  match a, b with
  | some x, some y => decide (x < y)
  | _, _ => false

/-- JS `<=` on finite-or-NaN numbers: any comparison with NaN is false. -/
noncomputable def oLe (a b : ONum) : Bool :=
  match a, b with
  | some x, some y => decide (x ≤ y)
  | _, _ => false

/-- JS `>` on finite-or-NaN numbers: any comparison with NaN is false. -/
noncomputable def oGt (a b : ONum) : Bool :=
  match a, b with
  | some x, some y => decide (x > y)
  | _, _ => false

/-- NaN-lifting of a quaternary real function. Every JS `Math` operation and
arithmetic operator in `angularSeparationDeg` / `initialBearingDeg` (including
`%`, `Math.min`, `Math.max`, `Math.acos`, `Math.atan2`) maps NaN to NaN, so on
finite-or-NaN inputs those functions are NaN exactly when some input is NaN,
and agree with their real models otherwise. -/
noncomputable def oLift4 (f : ℝ → ℝ → ℝ → ℝ → ℝ) (a b c d : ONum) : ONum :=
  match a, b, c, d with
  | some a, some b, some c, some d => some (f a b c d)
  | _, _, _, _ => none

/-- A `SearchBoundary` whose bounds may be NaN (`none`). -/
structure NSearchBoundary where
  centerRA : ONum
  centerDec : ONum
  minRA : ONum
  maxRA : ONum
  minDec : ONum
  maxDec : ONum
  searchRadiusDegrees : ONum

/-- A search result in the NaN-semantics model. -/
structure NSearchResult where
  object : CelestialObject
  distanceDeg : ONum
  bearingDeg : ONum

/-- An RA segment in the NaN-semantics model. -/
structure NRASegment where
  lo : ONum
  hi : ONum

/-- The sort comparator in the NaN-semantics model. When a distance is NaN the
JS comparator returns NaN and `Array.prototype.sort` is free to order the pair
arbitrarily; the model keeps the original order in that case. No theorem below
sorts a list where this case arises (the sorted lists are empty). -/
noncomputable def oSearchLe (a b : NSearchResult) : Bool :=
  match a.distanceDeg, b.distanceDeg with
  | some x, some y => decide (x ≤ y)
  | _, _ => true

/-- Source: `searchCelestialObjects` in `spatialSearch.ts`, re-read over
finite-or-NaN numbers (`ONum`) instead of `ℝ`: the same statements with JS
NaN semantics for `*15`, the comparisons, and the distance/bearing math.
Catalog RA/Dec values are finite (`some obj.Loc1_RA`); only the boundary may
carry NaN. This model witnesses what the code does on a malformed boundary. -/
noncomputable def searchCelestialObjectsN (searchArea : NSearchBoundary)
    (source : List CelestialObject) : List NSearchResult :=
  let centerRAdeg := oNum1 (fun h => h * 15) searchArea.centerRA
  let centerDec := searchArea.centerDec
  let minRADeg := oNum1 (fun h => h * 15) searchArea.minRA
  let maxRADeg := oNum1 (fun h => h * 15) searchArea.maxRA
  let segments : List NRASegment :=
    if oLe minRADeg maxRADeg then [⟨minRADeg, maxRADeg⟩]
    else [⟨minRADeg, some 360⟩, ⟨some 0, maxRADeg⟩]
  let results := source.filterMap (fun obj =>
    let ra := oNum1 wrapDegrees (some obj.Loc1_RA)
    let dec : ONum := some obj.Loc2_DEC
    if oLt dec searchArea.minDec || oGt dec searchArea.maxDec then none
    else if !(segments.any fun seg => oLe seg.lo ra && oLe ra seg.hi) then none
    else some
      { object := obj
        distanceDeg := oLift4 angularSeparationDeg centerRAdeg centerDec ra dec
        bearingDeg := oLift4 initialBearingDeg centerRAdeg centerDec ra dec })
  results.mergeSort oSearchLe

lemma radToDeg_arcsin_mem (x : ℝ) :
    -90 ≤ radToDeg (Real.arcsin x) ∧ radToDeg (Real.arcsin x) ≤ 90 := by
  have h1 := Real.neg_pi_div_two_le_arcsin x
  have h2 := Real.arcsin_le_pi_div_two x
  have hpi := Real.pi_pos
  have e1 : -(Real.pi / 2) * 180 / Real.pi = -90 := by
    field_simp
    ring
  have e2 : Real.pi / 2 * 180 / Real.pi = 90 := by
    field_simp
    ring
  constructor
  · rw [radToDeg, ← e1]
    exact div_le_div_of_nonneg_right (mul_le_mul_of_nonneg_right h1 (by norm_num)) hpi.le
  · rw [radToDeg, ← e2]
    exact div_le_div_of_nonneg_right (mul_le_mul_of_nonneg_right h2 (by norm_num)) hpi.le

/-- C8: for all (finite) altitude, azimuth, latitude, longitude inputs and any
date, `altAzToRaDec` returns `raHours` in `[0, 24)` and `decDeg` in
`[-90, 90]`. -/
theorem altAzToRaDec_range (altitudeDeg azimuthDeg latitudeDeg longitudeDeg : ℝ)
    (date : JSDate) :
    0 ≤ (altAzToRaDec altitudeDeg azimuthDeg latitudeDeg longitudeDeg date).raHours ∧
    (altAzToRaDec altitudeDeg azimuthDeg latitudeDeg longitudeDeg date).raHours < 24 ∧
    -90 ≤ (altAzToRaDec altitudeDeg azimuthDeg latitudeDeg longitudeDeg date).decDeg ∧
    (altAzToRaDec altitudeDeg azimuthDeg latitudeDeg longitudeDeg date).decDeg ≤ 90 := by
  refine ⟨?_, ?_, ?_, ?_⟩ <;> simp only [altAzToRaDec, decRadOf]
  · exact (wrapHours_mem _).1
  · exact (wrapHours_mem _).2
  · exact (radToDeg_arcsin_mem _).1
  · exact (radToDeg_arcsin_mem _).2

/-- C9: any non-finite orientation component makes `deviceOrientationToAltAz`
return the explicit `{altitude: NaN, azimuth: NaN}` unavailability signal,
without entering the rotation computation. -/
theorem deviceOrientationToAltAz_nan (alpha beta gamma : JSVal)
    (h : alpha.isFinite = false ∨ beta.isFinite = false ∨ gamma.isFinite = false) :
    deviceOrientationToAltAz alpha beta gamma = (JSVal.nan, JSVal.nan) := by
  cases alpha <;> cases beta <;> cases gamma <;>
    simp_all [deviceOrientationToAltAz, JSVal.isFinite]

/-- Witness for C9 at the concrete input `(NaN, 0, 0)`. -/
theorem deviceOrientationToAltAz_nan_witness :
    JSVal.isFinite JSVal.nan = false ∧
    deviceOrientationToAltAz JSVal.nan (JSVal.num 0) (JSVal.num 0) =
      (JSVal.nan, JSVal.nan) :=
  ⟨rfl, deviceOrientationToAltAz_nan _ _ _ (Or.inl rfl)⟩

/-- C3 (amended): the divisor guard of `altAzToRaDec` substitutes the unsigned
epsilon `1e-9` exactly when `cos dec` is exactly zero (the JS `|| 1e-9` falsy
check); for every other value of `cos dec` — including values within `1e-9` of
zero — `cos dec` itself is the divisor, and since
`dec = asin(...) ∈ [-π/2, π/2]` that divisor is then strictly positive. -/
theorem cosDecGuard_fires_only_at_zero (altitudeDeg azimuthDeg latitudeDeg : ℝ) :
    (Real.cos (decRadOf altitudeDeg azimuthDeg latitudeDeg) = 0 ∧
      cosDecGuard (Real.cos (decRadOf altitudeDeg azimuthDeg latitudeDeg)) = 1e-9) ∨
    (0 < Real.cos (decRadOf altitudeDeg azimuthDeg latitudeDeg) ∧
      cosDecGuard (Real.cos (decRadOf altitudeDeg azimuthDeg latitudeDeg)) =
        Real.cos (decRadOf altitudeDeg azimuthDeg latitudeDeg)) := by
  set c := Real.cos (decRadOf altitudeDeg azimuthDeg latitudeDeg) with hc
  have hnn : 0 ≤ c := by
    rw [hc, decRadOf]
    exact Real.cos_nonneg_of_mem_Icc (Real.arcsin_mem_Icc _)
  by_cases h0 : c = 0
  · exact Or.inl ⟨h0, by rw [cosDecGuard, if_pos h0]⟩
  · exact Or.inr ⟨lt_of_le_of_ne hnn (Ne.symm h0), by rw [cosDecGuard, if_neg h0]⟩

lemma decRadOf_zero_small : decRadOf 0 1e-8 0 = Real.pi / 2 - degToRad 1e-8 := by
  have hpi := Real.pi_pos
  have ht0 : 0 < degToRad 1e-8 := by
    rw [degToRad]
    positivity
  have htle : degToRad 1e-8 ≤ Real.pi := by
    rw [degToRad]
    nlinarith
  have hd0 : degToRad 0 = 0 := by
    rw [degToRad]
    ring
  rw [decRadOf, hd0]
  simp only [Real.sin_zero, Real.cos_zero, zero_mul, one_mul, zero_add]
  have h1 : min 1 (Real.cos (degToRad 1e-8)) = Real.cos (degToRad 1e-8) :=
    min_eq_right (Real.cos_le_one _)
  have h2 : max (-1) (Real.cos (degToRad 1e-8)) = Real.cos (degToRad 1e-8) :=
    max_eq_right (Real.neg_one_le_cos _)
  rw [h1, h2, ← Real.sin_pi_div_two_sub]
  exact Real.arcsin_sin (by linarith) (by linarith)

/-- C3 (counterexample): at the concrete input
`altitude = 0°, azimuth = 1e-8°, latitude = 0°`, the computed `cos dec` is
within `1e-9` of zero but nonzero, and the guard leaves it unchanged —
the divisor is neither `+1e-9` nor `-1e-9`, refuting the claim that a signed
epsilon is substituted whenever `cos dec` is within `1e-9` of zero. -/
theorem cosDecGuard_not_near_zero_counterexample :
    0 < Real.cos (decRadOf 0 1e-8 0) ∧
    Real.cos (decRadOf 0 1e-8 0) < 1e-9 ∧
    cosDecGuard (Real.cos (decRadOf 0 1e-8 0)) = Real.cos (decRadOf 0 1e-8 0) ∧
    cosDecGuard (Real.cos (decRadOf 0 1e-8 0)) ≠ 1e-9 ∧
    cosDecGuard (Real.cos (decRadOf 0 1e-8 0)) ≠ -1e-9 := by
  have hpi := Real.pi_pos
  have hpi315 := Real.pi_lt_d2
  have hpi3 := Real.pi_gt_three
  have ht0 : 0 < degToRad 1e-8 := by
    rw [degToRad]
    positivity
  have htsmall : degToRad 1e-8 < 1e-9 := by
    rw [degToRad]
    nlinarith
  have hcos : Real.cos (decRadOf 0 1e-8 0) = Real.sin (degToRad 1e-8) := by
    rw [decRadOf_zero_small, Real.cos_pi_div_two_sub]
  have hpos : 0 < Real.cos (decRadOf 0 1e-8 0) := by
    rw [hcos]
    exact Real.sin_pos_of_pos_of_lt_pi ht0 (by nlinarith)
  have hlt : Real.cos (decRadOf 0 1e-8 0) < 1e-9 := by
    rw [hcos]
    calc Real.sin (degToRad 1e-8) < degToRad 1e-8 := Real.sin_lt ht0
    _ < 1e-9 := htsmall
  have hguard : cosDecGuard (Real.cos (decRadOf 0 1e-8 0)) =
      Real.cos (decRadOf 0 1e-8 0) := by
    rw [cosDecGuard, if_neg (ne_of_gt hpos)]
  refine ⟨hpos, hlt, hguard, ?_, ?_⟩
  · rw [hguard]
    exact ne_of_lt hlt
  · rw [hguard]
    intro h
    rw [h] at hpos
    norm_num at hpos

lemma searchLe_trans (a b c : SearchResult)
    (hab : searchLe a b = true) (hbc : searchLe b c = true) : searchLe a c = true := by
  simp only [searchLe, decide_eq_true_eq] at *
  exact le_trans hab hbc

lemma searchLe_total (a b : SearchResult) : (searchLe a b || searchLe b a) = true := by
  simp only [searchLe, Bool.or_eq_true, decide_eq_true_eq]
  exact le_total _ _

/-- The two `continue` tests of the filter loop, packaged as one condition. -/
def searchPasses (b : SearchBoundary) (o : CelestialObject) : Prop :=
  ¬(o.Loc2_DEC < b.minDec ∨ o.Loc2_DEC > b.maxDec) ∧
    ∃ seg ∈ searchSegments b,
      seg.lo ≤ wrapDegrees o.Loc1_RA ∧ wrapDegrees o.Loc1_RA ≤ seg.hi

noncomputable instance (b : SearchBoundary) (o : CelestialObject) :
    Decidable (searchPasses b o) := by
  unfold searchPasses
  infer_instance

lemma searchStep_eq (b : SearchBoundary) (o : CelestialObject) :
    searchStep b o =
    if searchPasses b o then
      some
        { object := o
          distanceDeg := angularSeparationDeg (raHoursToDeg b.centerRA) b.centerDec
            (wrapDegrees o.Loc1_RA) o.Loc2_DEC
          bearingDeg := initialBearingDeg (raHoursToDeg b.centerRA) b.centerDec
            (wrapDegrees o.Loc1_RA) o.Loc2_DEC }
    else none := by
  unfold searchStep searchPasses
  by_cases h1 : o.Loc2_DEC < b.minDec ∨ o.Loc2_DEC > b.maxDec
  · rw [if_pos h1, if_neg (fun hc => hc.1 h1)]
  · by_cases h2 : ∃ seg ∈ searchSegments b,
        seg.lo ≤ wrapDegrees o.Loc1_RA ∧ wrapDegrees o.Loc1_RA ≤ seg.hi
    · rw [if_neg h1, if_neg (not_not_intro h2), if_pos ⟨h1, h2⟩]
    · rw [if_neg h1, if_pos h2, if_neg (fun hc => h2 hc.2)]

/-- The filter loop of `searchCelestialObjects` keeps exactly the objects
passing the Dec bounds and the RA segment test, in catalog iteration order. -/
lemma searchCandidates_map_object (b : SearchBoundary) (src : List CelestialObject) :
    (searchCandidates b src).map (fun r => r.object) =
    src.filter (fun o => decide (searchPasses b o)) := by
  induction src with
  | nil => rfl
  | cons o t ih =>
    simp only [searchCandidates, List.filterMap_cons, List.filter_cons] at *
    rw [searchStep_eq]
    by_cases h : searchPasses b o
    · rw [if_pos h, if_pos (decide_eq_true h)]
      simpa using ih
    · rw [if_neg h, if_neg (by simpa using h)]
      exact ih

/-- Stated from the claim's wording (C2): declination within `[minDec, maxDec]`
and wrapped RA within `[minRA*15, 360)` or `[0, maxRA*15]` degrees. -/
def claimWrapMembership (b : SearchBoundary) (o : CelestialObject) : Prop :=
  (b.minDec ≤ o.Loc2_DEC ∧ o.Loc2_DEC ≤ b.maxDec) ∧
  ((raHoursToDeg b.minRA ≤ wrapDegrees o.Loc1_RA ∧ wrapDegrees o.Loc1_RA < 360) ∨
    (0 ≤ wrapDegrees o.Loc1_RA ∧ wrapDegrees o.Loc1_RA ≤ raHoursToDeg b.maxRA))

noncomputable instance (b : SearchBoundary) (o : CelestialObject) :
    Decidable (claimWrapMembership b o) := by
  unfold claimWrapMembership
  infer_instance

/-- C2: on a wraparound boundary (`minRA > maxRA`), the search returns exactly
the objects with declination in `[minDec, maxDec]` and wrapped RA in
`[minRA*15, 360)` or `[0, maxRA*15]` — both sides of the 0/24h seam, inclusive
bounds. -/
theorem searchCelestialObjects_wraparound (b : SearchBoundary)
    (src : List CelestialObject) (h : b.maxRA < b.minRA) :
    ((searchCelestialObjects b src).map (fun r => r.object)).Perm
      (src.filter (fun o => decide (claimWrapMembership b o))) := by
  have hseg : raHoursToDeg b.maxRA < raHoursToDeg b.minRA := by
    unfold raHoursToDeg
    nlinarith
  have hsegs : searchSegments b = [⟨raHoursToDeg b.minRA, 360⟩, ⟨0, raHoursToDeg b.maxRA⟩] := by
    unfold searchSegments
    rw [if_neg (not_le.mpr hseg)]
  have hperm : ((searchCelestialObjects b src).map (fun r => r.object)).Perm
      ((searchCandidates b src).map (fun r => r.object)) :=
    (List.mergeSort_perm (searchCandidates b src) searchLe).map _
  rw [searchCandidates_map_object] at hperm
  have heq : src.filter (fun o => decide (searchPasses b o)) =
      src.filter (fun o => decide (claimWrapMembership b o)) := by
    apply List.filter_congr
    intro o _
    apply decide_eq_decide.mpr
    have hra := wrapDegrees_mem o.Loc1_RA
    unfold searchPasses claimWrapMembership
    rw [hsegs]
    simp only [List.mem_cons, List.not_mem_nil, or_false, List.mem_singleton]
    constructor
    · rintro ⟨hdec, seg, hm, hlo, hhi⟩
      push_neg at hdec
      refine ⟨hdec, ?_⟩
      rcases hm with rfl | rfl
      · exact Or.inl ⟨hlo, hra.2⟩
      · exact Or.inr ⟨hlo, hhi⟩
    · rintro ⟨⟨h1, h2⟩, hrs⟩
      refine ⟨by push_neg; exact ⟨h1, h2⟩, ?_⟩
      rcases hrs with ⟨hlo, hlt⟩ | ⟨hlo, hhi⟩
      · exact ⟨⟨raHoursToDeg b.minRA, 360⟩, Or.inl rfl, hlo, le_of_lt hlt⟩
      · exact ⟨⟨0, raHoursToDeg b.maxRA⟩, Or.inr rfl, hlo, hhi⟩
  rw [heq] at hperm
  exact hperm

/-- A wraparound boundary `minRA = 23.5h, maxRA = 0.5h` for the C2 witness. -/
def wrapBoundary : SearchBoundary :=
  { centerRA := 0, centerDec := 0, minRA := 23.5, maxRA := 0.5,
    minDec := -5, maxDec := 5, searchRadiusDegrees := 7 }

/-- An object near the high side of the 0/24h seam (RA 352.6° = 23.51h). -/
def objHighSide : CelestialObject :=
  { id_objeto := "HIGH", disposicion := .candidato, Loc1_RA := 352.6, Loc2_DEC := 0,
    radio_planeta := 1, temp_planeta := 1, periodo_orbital := 1,
    temp_estrella := 1, radio_estrella := 1,
    bandera_fp_nt := false, bandera_fp_ss := false,
    bandera_fp_co := false, bandera_fp_ec := false }

/-- An object near the low side of the 0/24h seam (RA 3° = 0.2h). -/
def objLowSide : CelestialObject :=
  { objHighSide with id_objeto := "LOW", Loc1_RA := 3 }

/-- An object far from the seam (RA 100°), outside the wraparound region. -/
def objFarSide : CelestialObject :=
  { objHighSide with id_objeto := "FAR", Loc1_RA := 100 }

/-- Witness for C2 at the boundary `minRA = 23.5h > maxRA = 0.5h` and a
three-object dataset straddling the seam. -/
theorem searchCelestialObjects_wraparound_witness :
    wrapBoundary.maxRA < wrapBoundary.minRA ∧
    ((searchCelestialObjects wrapBoundary [objHighSide, objLowSide, objFarSide]).map
        (fun r => r.object)).Perm
      ([objHighSide, objLowSide, objFarSide].filter
        (fun o => decide (claimWrapMembership wrapBoundary o))) :=
  ⟨by norm_num [wrapBoundary],
    searchCelestialObjects_wraparound wrapBoundary _ (by norm_num [wrapBoundary])⟩

/-- C7: the search output is sorted ascending by `distanceDeg`, and results
with any given `distanceDeg` appear in the same order as in the unsorted
candidate pass over the catalog (stable ties in catalog iteration order). -/
theorem searchCelestialObjects_sorted_stable (b : SearchBoundary)
    (src : List CelestialObject) :
    (searchCelestialObjects b src).Pairwise (fun a c => a.distanceDeg ≤ c.distanceDeg) ∧
    ∀ d : ℝ, (searchCelestialObjects b src).filter (fun r => decide (r.distanceDeg = d)) =
      (searchCandidates b src).filter (fun r => decide (r.distanceDeg = d)) := by
  constructor
  · have hs := List.sorted_mergeSort searchLe_trans searchLe_total (searchCandidates b src)
    exact hs.imp (fun h => by simpa [searchLe, decide_eq_true_eq] using h)
  · intro d
    have hB_sub : ((searchCandidates b src).filter
        (fun r => decide (r.distanceDeg = d))).Sublist (searchCandidates b src) :=
      List.filter_sublist _
    have hB_pw : ((searchCandidates b src).filter
        (fun r => decide (r.distanceDeg = d))).Pairwise (fun a c => searchLe a c = true) := by
      apply List.pairwise_of_forall_mem_list
      intro a ha c hc
      have ha' := (List.mem_filter.mp ha).2
      have hc' := (List.mem_filter.mp hc).2
      simp only [decide_eq_true_eq] at ha' hc'
      simp [searchLe, ha', hc']
    have hstable := List.sublist_mergeSort searchLe_trans searchLe_total hB_pw hB_sub
    have hfil : ((searchCandidates b src).filter (fun r => decide (r.distanceDeg = d))).filter
        (fun r => decide (r.distanceDeg = d)) =
        (searchCandidates b src).filter (fun r => decide (r.distanceDeg = d)) :=
      List.filter_eq_self.mpr (fun a ha => (List.mem_filter.mp ha).2)
    have hsub2 : ((searchCandidates b src).filter
        (fun r => decide (r.distanceDeg = d))).Sublist
        (((searchCandidates b src).mergeSort searchLe).filter
          (fun r => decide (r.distanceDeg = d))) := by
      rw [← hfil]
      exact List.Sublist.filter _ hstable
    have hperm : ((((searchCandidates b src).mergeSort searchLe)).filter
        (fun r => decide (r.distanceDeg = d))).Perm
        ((searchCandidates b src).filter (fun r => decide (r.distanceDeg = d))) :=
      (List.mergeSort_perm (searchCandidates b src) searchLe).filter _
    exact (hsub2.eq_of_length hperm.length_eq.symm).symm

lemma foldl_insertObj_all (ds : List CelestialObject) :
    ∀ m : ManagerState, (ds.foldl insertObj m).all = m.all ++ ds.map normalizeObj := by
  induction ds with
  | nil => intro m; simp
  | cons o t ih =>
    intro m
    simp only [List.foldl_cons, List.map_cons, ih, insertObj]
    simp

lemma foldl_insertObj_regions (ds : List CelestialObject) :
    ∀ (m : ManagerState) (k : ℤ × ℤ),
      (ds.foldl insertObj m).regions k =
      m.regions k ++ (ds.map normalizeObj).filter
        (fun n => decide (regionKey n.Loc1_RA n.Loc2_DEC = k)) := by
  induction ds with
  | nil => intro m k; simp
  | cons o t ih =>
    intro m k
    simp only [List.foldl_cons, List.map_cons, List.filter_cons, ih, insertObj]
    by_cases hk : regionKey (normalizeObj o).Loc1_RA (normalizeObj o).Loc2_DEC = k
    · rw [if_pos (decide_eq_true hk), if_pos hk.symm]
      simp
    · rw [if_neg (show ¬ k = regionKey (normalizeObj o).Loc1_RA (normalizeObj o).Loc2_DEC
        from fun hc => hk hc.symm)]
      rw [if_neg (show ¬ (decide (regionKey (normalizeObj o).Loc1_RA
          (normalizeObj o).Loc2_DEC = k) = true) from by simpa using hk)]

lemma foldl_insertObj_byType (ds : List CelestialObject) :
    ∀ (m : ManagerState) (c : Disposicion),
      (ds.foldl insertObj m).byType c =
      m.byType c ++ (ds.map normalizeObj).filter
        (fun n => decide (n.disposicion = c)) := by
  induction ds with
  | nil => intro m c; simp
  | cons o t ih =>
    intro m c
    simp only [List.foldl_cons, List.map_cons, List.filter_cons, ih, insertObj]
    by_cases hc : (normalizeObj o).disposicion = c
    · rw [if_pos (decide_eq_true hc), if_pos hc.symm]
      simp
    · rw [if_neg (show ¬ c = (normalizeObj o).disposicion from fun h => hc h.symm)]
      rw [if_neg (show ¬ (decide ((normalizeObj o).disposicion = c) = true)
        from by simpa using hc)]

lemma normalizeObj_id (o : CelestialObject) :
    (normalizeObj o).id_objeto = o.id_objeto := rfl

lemma foldl_insertObj_idToObj_preserve (ds : List CelestialObject) :
    ∀ (m : ManagerState) (k : String), (∀ o ∈ ds, o.id_objeto ≠ k) →
      (ds.foldl insertObj m).idToObj k = m.idToObj k := by
  induction ds with
  | nil => intro m k _; rfl
  | cons o t ih =>
    intro m k hne
    simp only [List.foldl_cons]
    rw [ih _ _ (fun o' ho' => hne o' (List.mem_cons_of_mem _ ho'))]
    simp only [insertObj, normalizeObj_id]
    rw [if_neg (fun hc => hne o (List.mem_cons_self _ _) hc.symm)]

lemma foldl_insertObj_idToObj_nodup (ds : List CelestialObject) :
    ∀ m : ManagerState, (ds.map (fun o => o.id_objeto)).Nodup →
      ∀ o ∈ ds, (ds.foldl insertObj m).idToObj o.id_objeto = some (normalizeObj o) := by
  induction ds with
  | nil => intro m _ o ho; cases ho
  | cons x t ih =>
    intro m hnd o ho
    simp only [List.map_cons, List.nodup_cons] at hnd
    rcases List.mem_cons.mp ho with rfl | hot
    · simp only [List.foldl_cons]
      rw [foldl_insertObj_idToObj_preserve t _ _
        (fun o' ho' hc => hnd.1 (by rw [← hc]; exact List.mem_map_of_mem _ ho'))]
      simp [insertObj, normalizeObj_id]
    · exact ih _ hnd.2 o hot

/-- Stated from the spec's words (C6): the brute-force linear filter of the
full catalog restricted to the same 10 x 10 degree bucket. -/
noncomputable def bruteForceRegion (m : ManagerState) (raDeg decDeg : ℝ) :
    List CelestialObject :=
  (getAllObjects m).filter
    (fun o => decide (regionKey o.Loc1_RA o.Loc2_DEC = regionKey raDeg decDeg))

/-- C6: after any load, `_getRegion(ra, dec)` returns exactly what the
brute-force linear filter over the full catalog restricted to the same bucket
returns — the same objects in the same (insertion) order, and the empty list
when the bucket has no members. -/
theorem getRegion_eq_bruteForceRegion (m : ManagerState) (ds : List CelestialObject)
    (raDeg decDeg : ℝ) :
    getRegion (loadDataset m ds) raDeg decDeg =
    bruteForceRegion (loadDataset m ds) raDeg decDeg := by
  unfold getRegion bruteForceRegion getAllObjects loadDataset
  simp only [foldl_insertObj_regions, foldl_insertObj_all, emptyManagerState]
  simp

/-- Two catalog records sharing the id `"DUP"` but with different
declinations; both are already normalized (`ra` in `[0,360)`, `dec` in
`[-90,90]`). -/
def dupA : CelestialObject :=
  { id_objeto := "DUP", disposicion := .candidato, Loc1_RA := 10, Loc2_DEC := 0,
    radio_planeta := 1, temp_planeta := 1, periodo_orbital := 1,
    temp_estrella := 1, radio_estrella := 1,
    bandera_fp_nt := false, bandera_fp_ss := false,
    bandera_fp_co := false, bandera_fp_ec := false }

/-- The second record with the duplicated id (declination 50 instead of 0). -/
def dupB : CelestialObject :=
  { dupA with Loc2_DEC := 50 }

/-- C5 (counterexample): on the dataset `[dupA, dupB]` whose two records share
one id, the first normalized object is in the catalog (`all`) but under no key
of the id map — the later `Map.set` overwrote it — so the claim as stated
(every normalized object appears in the id map, on any dataset) is false. -/
theorem loadDataset_duplicate_id_counterexample :
    normalizeObj dupA ∈ (loadDataset emptyManagerState [dupA, dupB]).all ∧
    ∀ k : String,
      (loadDataset emptyManagerState [dupA, dupB]).idToObj k ≠ some (normalizeObj dupA) := by
  have hdec : (normalizeObj dupB).Loc2_DEC = 50 := by
    show clampDec dupB.Loc2_DEC = 50
    norm_num [clampDec, dupB, dupA]
  have hdecA : (normalizeObj dupA).Loc2_DEC = 0 := by
    show clampDec dupA.Loc2_DEC = 0
    norm_num [clampDec, dupA]
  have hne : normalizeObj dupB ≠ normalizeObj dupA := by
    intro hc
    have hboth : (normalizeObj dupB).Loc2_DEC = (normalizeObj dupA).Loc2_DEC := by rw [hc]
    rw [hdec, hdecA] at hboth
    norm_num at hboth
  constructor
  · rw [loadDataset]
    simp only [foldl_insertObj_all, emptyManagerState]
    simp
  · intro k
    rw [loadDataset]
    simp only [List.foldl_cons, List.foldl_nil, insertObj, normalizeObj_id, emptyManagerState]
    by_cases hk : k = dupB.id_objeto
    · rw [if_pos hk]
      exact fun hc => hne (Option.some.inj hc)
    · rw [if_neg hk, if_neg (by simpa [dupB, dupA] using hk)]
      exact fun hc => Option.noConfusion hc

/-- C5 (amended): on any dataset whose records carry pairwise-distinct ids (the
data model's id-uniqueness invariant), every `loadDataset` call rebuilds all
three indices wholesale from the new dataset — the result is independent of
the previous state, `all` is exactly the normalized dataset, and each
normalized object appears under its id in the id map, in exactly one region
bucket, and in exactly one classification bucket. -/
theorem loadDataset_indices (m m' : ManagerState) (ds : List CelestialObject)
    (hids : (ds.map (fun o => o.id_objeto)).Nodup) :
    loadDataset m ds = loadDataset m' ds ∧
    (loadDataset m ds).all = ds.map normalizeObj ∧
    ∀ o ∈ ds,
      (loadDataset m ds).idToObj o.id_objeto = some (normalizeObj o) ∧
      (∃! k : ℤ × ℤ, normalizeObj o ∈ (loadDataset m ds).regions k) ∧
      (∃! c : Disposicion, normalizeObj o ∈ (loadDataset m ds).byType c) := by
  refine ⟨rfl, ?_, ?_⟩
  · rw [loadDataset]
    simp only [foldl_insertObj_all, emptyManagerState]
    simp
  · intro o ho
    refine ⟨?_, ?_, ?_⟩
    · rw [loadDataset]
      exact foldl_insertObj_idToObj_nodup ds emptyManagerState hids o ho
    · refine ⟨regionKey (normalizeObj o).Loc1_RA (normalizeObj o).Loc2_DEC, ?_, ?_⟩
      · rw [loadDataset]
        simp only [foldl_insertObj_regions, emptyManagerState]
        simp only [List.nil_append, List.mem_filter, decide_eq_true_eq]
        exact ⟨List.mem_map_of_mem _ ho, by trivial⟩
      · intro k hk
        rw [loadDataset] at hk
        simp only [foldl_insertObj_regions, emptyManagerState] at hk
        simp only [List.nil_append, List.mem_filter, decide_eq_true_eq] at hk
        exact hk.2.symm
    · refine ⟨(normalizeObj o).disposicion, ?_, ?_⟩
      · rw [loadDataset]
        simp only [foldl_insertObj_byType, emptyManagerState]
        simp only [List.nil_append, List.mem_filter, decide_eq_true_eq]
        exact ⟨List.mem_map_of_mem _ ho, by trivial⟩
      · intro c hc
        rw [loadDataset] at hc
        simp only [foldl_insertObj_byType, emptyManagerState] at hc
        simp only [List.nil_append, List.mem_filter, decide_eq_true_eq] at hc
        exact hc.2.symm

/-- A single record with a unique id, for the C5 witness. -/
def soloObj : CelestialObject :=
  { dupA with id_objeto := "SOLO" }

/-- Witness for the amended C5 at the one-record dataset `[soloObj]`. -/
theorem loadDataset_indices_witness :
    (([soloObj] : List CelestialObject).map (fun o => o.id_objeto)).Nodup ∧
    (loadDataset emptyManagerState [soloObj]).idToObj soloObj.id_objeto =
      some (normalizeObj soloObj) := by
  have hids : (([soloObj] : List CelestialObject).map (fun o => o.id_objeto)).Nodup := by
    simp
  exact ⟨hids,
    ((loadDataset_indices emptyManagerState emptyManagerState [soloObj] hids).2.2
      soloObj (by simp)).1⟩

/-- C10: with the predictable-search flag off, the JS search variant returns
exactly the TS `searchCelestialObjects` result on every boundary and explicit
dataset — same objects, same `distanceDeg`/`bearingDeg`, same order. The two
bodies are the same computation: the flag only gates the extra debug tail. -/
theorem searchCelestialObjectsJS_eq_ts (searchArea : SearchBoundary)
    (source : List CelestialObject) (optsAlpha optsBeta : Option ℝ) (scanCount : ℕ) :
    searchCelestialObjectsJS searchArea source optsAlpha optsBeta false scanCount =
    searchCelestialObjects searchArea source := rfl

/-- A malformed boundary for C1: `minRA` is NaN, all other bounds finite.
Intended region: RA from 23h across the seam to 2h, Dec in `[-10, 10]`. -/
noncomputable def nanBoundary : NSearchBoundary :=
  { centerRA := some 1, centerDec := some 0, minRA := none, maxRA := some 2,
    minDec := some (-10), maxDec := some 10, searchRadiusDegrees := some 7 }

/-- The same boundary with the intended finite `minRA = 23h`. -/
def intendedBoundary : SearchBoundary :=
  { centerRA := 1, centerDec := 0, minRA := 23, maxRA := 2,
    minDec := -10, maxDec := 10, searchRadiusDegrees := 7 }

/-- An object at RA 350°, Dec 0° — inside the intended wraparound region. -/
def objSeam : CelestialObject :=
  { id_objeto := "SEAM", disposicion := .candidato, Loc1_RA := 350, Loc2_DEC := 0,
    radio_planeta := 1, temp_planeta := 1, periodo_orbital := 1,
    temp_estrella := 1, radio_estrella := 1,
    bandera_fp_nt := false, bandera_fp_ss := false,
    bandera_fp_co := false, bandera_fp_ec := false }

/-- C1 (code evaluated at the failing input): `searchCelestialObjects` does no
boundary validation. On the NaN-`minRA` boundary it silently scans and returns
the empty list — no error of any kind — even though the object at RA 350° lies
inside the intended region and is returned once `minRA` carries the intended
finite value 23h. -/
theorem searchCelestialObjects_nan_boundary_silent :
    searchCelestialObjectsN nanBoundary [objSeam] = [] ∧
    (searchCelestialObjects intendedBoundary [objSeam]).map (fun r => r.object) =
      [objSeam] := by
  have hw : wrapDegrees (350:ℝ) = 350 :=
    wrapDegrees_eq_self (by norm_num) (by norm_num)
  constructor
  · rw [searchCelestialObjectsN]
    simp only [nanBoundary, objSeam, oNum1, oLe, oLt, oGt, hw,
      List.filterMap_cons, List.filterMap_nil, List.any_cons, List.any_nil,
      Bool.false_and, Bool.or_false, Bool.false_or, Bool.and_eq_true,
      decide_eq_true_eq, Bool.or_eq_true]
    norm_num
  · have hpass : searchPasses intendedBoundary objSeam := by
      unfold searchPasses
      refine ⟨by norm_num [intendedBoundary, objSeam], ?_⟩
      unfold searchSegments
      rw [if_neg (by norm_num [raHoursToDeg, intendedBoundary])]
      refine ⟨⟨raHoursToDeg intendedBoundary.minRA, 360⟩, List.mem_cons_self _ _, ?_, ?_⟩ <;>
        simp only [objSeam] <;> rw [hw] <;>
        norm_num [raHoursToDeg, intendedBoundary]
    rw [searchCelestialObjects, searchCandidates]
    simp only [List.filterMap_cons, List.filterMap_nil, searchStep_eq, if_pos hpass]
    rw [List.mergeSort_singleton]
    simp

lemma degToRad_zero : degToRad 0 = 0 := by
  rw [degToRad]
  ring

lemma degToRad_89 : degToRad 89 = Real.pi / 2 - Real.pi / 180 := by
  rw [degToRad]
  ring

lemma degToRad_neg_one : degToRad (-1) = -(Real.pi / 180) := by
  rw [degToRad]
  ring

lemma cos_degToRad_89_pos : 0 < Real.cos (degToRad 89) := by
  have hpi := Real.pi_pos
  rw [degToRad_89]
  apply Real.cos_pos_of_mem_Ioo
  constructor <;> [linarith; linarith]

lemma cos_degToRad_89_small : Real.cos (degToRad 89) ≤ 1 / 36 := by
  have hpi := Real.pi_pos
  have hlt := Real.pi_lt_d2
  rw [degToRad_89, Real.cos_pi_div_two_sub]
  calc Real.sin (Real.pi / 180) ≤ Real.pi / 180 := Real.sin_le (by positivity)
  _ ≤ 1 / 36 := by nlinarith

/-- At `centerDec = 89` and radius 5, the RA-bounds block of
`calculateSearchArea` yields the full circle, through either branch. -/
lemma raBoundsOf_dec89_radius5 (centerRA : ℝ) : raBoundsOf centerRA 89 5 = (0, 24) := by
  rw [raBoundsOf]
  by_cases habs : |Real.cos (degToRad 89)| < 1e-6
  · rw [if_pos habs]
  · rw [if_neg habs]
    have habs2 : |Real.cos (degToRad 89)| = Real.cos (degToRad 89) :=
      abs_of_pos cos_degToRad_89_pos
    have hge : (12:ℝ) ≤ 5 / |Real.cos (degToRad 89)| / 15 := by
      rw [habs2, div_div, le_div_iff₀ (mul_pos cos_degToRad_89_pos (by norm_num))]
      nlinarith [cos_degToRad_89_small, cos_degToRad_89_pos]
    rw [min_eq_left hge, if_pos (by norm_num)]

/-- C4: whenever `calculateSearchArea` (radius 5) produces a boundary whose
`centerDec` is 89°, that boundary's RA range is the full circle
`minRA = 0, maxRA = 24` — via the `|cosDec| < 1e-6` pole branch or the
half-span branch (`min 12 (5/|cosDec|/15) = 12 ≥ 12 - 1e-6`). -/
theorem calculateSearchArea_dec89_full_circle
    (alpha beta gamma latitude longitude : ℝ) (now : JSDate)
    (h : (calculateSearchArea alpha beta gamma latitude longitude 5 now).centerDec = 89) :
    (calculateSearchArea alpha beta gamma latitude longitude 5 now).minRA = 0 ∧
    (calculateSearchArea alpha beta gamma latitude longitude 5 now).maxRA = 24 := by
  have hc : max (-90) (min 90
      (getRaDecFromDevice alpha beta gamma latitude longitude now).decDeg) = 89 := h
  constructor
  · show (raBoundsOf
      (wrapHours (getRaDecFromDevice alpha beta gamma latitude longitude now).raHours)
      (max (-90) (min 90
        (getRaDecFromDevice alpha beta gamma latitude longitude now).decDeg)) 5).1 = 0
    rw [hc, raBoundsOf_dec89_radius5]
  · show (raBoundsOf
      (wrapHours (getRaDecFromDevice alpha beta gamma latitude longitude now).raHours)
      (max (-90) (min 90
        (getRaDecFromDevice alpha beta gamma latitude longitude now).decDeg)) 5).2 = 24
    rw [hc, raBoundsOf_dec89_radius5]

lemma jsHypot3_unit (t : ℝ) : jsHypot3 0 (Real.sin t) (-Real.cos t) = 1 := by
  rw [jsHypot3]
  have : (0:ℝ) ^ 2 + Real.sin t ^ 2 + (-Real.cos t) ^ 2 = 1 := by
    have := Real.sin_sq_add_cos_sq t
    ring_nf
    linarith
  rw [this, Real.sqrt_one]

lemma jsAtan2_zero_pos {x : ℝ} (hx : 0 < x) : jsAtan2 0 x = 0 := by
  rw [jsAtan2, if_pos hx]
  simp [Real.arctan_zero]

lemma radToDeg_zero : radToDeg 0 = 0 := by
  rw [radToDeg]
  ring

/-- Pitching the device up by 89° (orientation `(0, 89, 0)`) points the camera
at altitude `-1°`, azimuth `0°` in this rotation convention. -/
lemma deviceOrientationToAltAzFinite_0_89_0 :
    deviceOrientationToAltAzFinite 0 89 0 = ⟨-1, 0⟩ := by
  have hpi := Real.pi_pos
  have hsinpos : 0 < Real.sin (degToRad 89) := by
    rw [degToRad_89]
    apply Real.sin_pos_of_pos_of_lt_pi <;> [linarith; linarith]
  rw [deviceOrientationToAltAzFinite]
  simp only [degToRad_zero, Real.sin_zero, Real.cos_zero]
  norm_num
  rw [jsHypot3_unit]
  norm_num
  constructor
  · have harc : Real.arcsin (Real.cos (degToRad 89)) = Real.pi / 180 := by
      rw [degToRad_89, Real.cos_pi_div_two_sub]
      exact Real.arcsin_sin (by linarith) (by linarith)
    rw [harc, radToDeg]
    field_simp
    ring
  · rw [jsAtan2_zero_pos hsinpos, radToDeg_zero, wrapDegrees_zero]

lemma decRadOf_neg_one : decRadOf (-1) 0 0 = Real.pi / 2 - Real.pi / 180 := by
  have hpi := Real.pi_pos
  rw [decRadOf]
  simp only [degToRad_zero, degToRad_neg_one, Real.sin_zero, Real.cos_zero,
    Real.cos_neg, mul_zero, zero_mul, mul_one, one_mul, zero_add, add_zero]
  rw [min_eq_right (Real.cos_le_one _), max_eq_right (Real.neg_one_le_cos _)]
  rw [← Real.sin_pi_div_two_sub]
  exact Real.arcsin_sin (by linarith) (by linarith)

/-- For orientation `(0, 89, 0)` at latitude 0, the pipeline's declination is
exactly 89°, for every date (the date only affects RA through sidereal time). -/
lemma getRaDecFromDevice_dec89 (d : JSDate) :
    (getRaDecFromDevice 0 89 0 0 0 d).decDeg = 89 := by
  have h : (getRaDecFromDevice 0 89 0 0 0 d).decDeg =
      radToDeg (decRadOf (deviceOrientationToAltAzFinite 0 89 0).altitude
        (deviceOrientationToAltAzFinite 0 89 0).azimuth 0) := rfl
  rw [h, deviceOrientationToAltAzFinite_0_89_0]
  show radToDeg (decRadOf (-1) 0 0) = 89
  rw [decRadOf_neg_one, radToDeg]
  field_simp
  ring

/-- The JS `Date` for 2024-01-01T00:00:00Z. -/
def d2024 : JSDate := ⟨2024, 0, 1, 0, 0, 0⟩

/-- Witness for C4: orientation `(0, 89, 0)` at `lat = lon = 0` on
2024-01-01 gives `centerDec = 89`, and the boundary's RA range is the full
`[0, 24)` circle. -/
theorem calculateSearchArea_dec89_witness :
    (calculateSearchArea 0 89 0 0 0 5 d2024).centerDec = 89 ∧
    (calculateSearchArea 0 89 0 0 0 5 d2024).minRA = 0 ∧
    (calculateSearchArea 0 89 0 0 0 5 d2024).maxRA = 24 := by
  have hc : (calculateSearchArea 0 89 0 0 0 5 d2024).centerDec = 89 := by
    show max (-90) (min 90 (getRaDecFromDevice 0 89 0 0 0 d2024).decDeg) = 89
    rw [getRaDecFromDevice_dec89]
    norm_num
  exact ⟨hc, (calculateSearchArea_dec89_full_circle 0 89 0 0 0 d2024 hc).1,
    (calculateSearchArea_dec89_full_circle 0 89 0 0 0 d2024 hc).2⟩
